import Mathlib

/-!
Shallow embedding of the tour-recommendation service (config.py,
search_service.py, data_service.py) and proofs about its behaviour.

Python strings are modelled as Lean `String` (sequences of Unicode code
points, matching Python's character-level slicing and length).  Python
`None`-able values are modelled with `Option`; Python's falsy-default
idiom `x or d` is modelled by explicit helpers.  External effects (the
embedding model, the language model, HTTP GET/HEAD traffic and random
sampling) are modelled as oracle function parameters; the control flow
around them is translated from the source.
-/

namespace TourRec

/-! ### Python-style string helpers -/

/-- Python `str.strip()`: drop leading and trailing whitespace. -/
def pyStrip (s : String) : String :=
  (((s.toList.dropWhile Char.isWhitespace).reverse.dropWhile Char.isWhitespace).reverse).asString

/-- Replace every non-overlapping occurrence of `pat` (left to right) by
`repl`, as Python `str.replace` does for a non-empty pattern.  `fuel`
bounds the recursion; every step consumes at least one character, so
`fuel = s.length` is always enough. -/
def replaceAux (pat repl : List Char) : Nat → List Char → List Char
  | _, [] => []
  | 0, s => s
  | fuel + 1, c :: rest =>
    if pat ≠ [] ∧ pat.isPrefixOf (c :: rest) then
      repl ++ replaceAux pat repl fuel (rest.drop (pat.length - 1))
    else
      c :: replaceAux pat repl fuel rest

/-- Python `s.replace(pat, repl)` (patterns used in the source are non-empty). -/
def pyReplace (s pat repl : String) : String :=
  (replaceAux pat.toList repl.toList s.toList.length s.toList).asString

/-- Substring occurrence test on character lists. -/
def containsSub (needle : List Char) : List Char → Bool
  | [] => needle.isEmpty
  | c :: rest => needle.isPrefixOf (c :: rest) || containsSub needle rest

/-- Python `needle in hay` on strings. -/
def strContains (hay needle : String) : Bool :=
  containsSub needle.toList hay.toList

/-- Python `s.startswith(p)`. -/
def pyStartsWith (s p : String) : Bool := p.toList.isPrefixOf s.toList

/-- Python `s.endswith(p)`. -/
def pyEndsWith (s p : String) : Bool := p.toList.isSuffixOf s.toList

/-- Python `s.lower()` (ASCII case folding; the strings it is applied to
in the source are URLs and header values). -/
def pyToLower (s : String) : String := (s.toList.map Char.toLower).asString

/-- Python `s[:n]` on strings (character count). -/
def pyTake (s : String) (n : Nat) : String := (s.toList.take n).asString

/-- Python `a or b` for strings: `b` when `a` is empty. -/
def pyOrS (a b : String) : String := if a = "" then b else a

/-- Python `x or d` for an optional integer argument: `None` and `0` are
falsy and give the default. -/
def pyOrNat : Option Nat → Nat → Nat
  | none, d => d
  | some n, d => if n = 0 then d else n

/-- Python `s.isdigit()` restricted to ASCII digits. -/
def pyIsDigit (s : String) : Bool := s ≠ "" && s.toList.all Char.isDigit

/-- Python `int(s)` on an all-digit string. -/
def pyInt (s : String) : Nat :=
  s.toList.foldl (fun n c => n * 10 + (c.toNat - 48)) 0

/-! ### Configuration constants (config.py) -/

def NUM_RECOMMEND : Nat := 5
def API_FETCH_MULTIPLIER : Nat := 6
def MAX_CACHE_ITEMS : Nat := 500
def CACHE_SIM_THRESHOLD : ℚ := 82/100
def IMAGE_MIN_BYTES : Nat := 1024
def IMAGE_MAX_BYTES : Nat := 15 * 1024 * 1024
def IMAGE_ALLOWED_EXTS : List String := ["jpg", "jpeg", "png", "webp"]
def IMAGE_DENY_DOMAINS : List String := ["example.com", "localhost", "127.0.0.1"]
def IMAGE_HEAD_WHITELIST_NOHEAD : List String := ["tong.visitkorea.or.kr"]

/-! ### Cosine similarity (search_service._cos_sim)

Python floats are modelled by real numbers; `math.sqrt` by `Real.sqrt`
and the float-falsy default `x or 1e-9` by `pyOrR`. -/

/-- Model of `sum(x*y for x, y in zip(a, b))`. -/
def dotList (a b : List ℝ) : ℝ := (List.zipWith (· * ·) a b).sum

/-- Model of `sum(x*x for x in a)`. -/
def sumSq (a : List ℝ) : ℝ := (a.map (fun x => x * x)).sum

/-- Python `x or y` on floats: `y` when `x == 0.0`. -/
noncomputable def pyOrR (x y : ℝ) : ℝ := if x = 0 then y else x

/-- Model of `math.sqrt(sum(x*x for x in a)) or 1e-9`. -/
noncomputable def normFloor (a : List ℝ) : ℝ :=
  pyOrR (Real.sqrt (sumSq a)) (1 / 1000000000)

/-- Model of `_cos_sim(a, b) = dot / (na * nb)`. -/
noncomputable def cos_sim (a b : List ℝ) : ℝ :=
  dotList a b / (normFloor a * normFloor b)

/-! ### Cards and cache records -/

/-- The `metadata` mapping attached to each card in
`DataService.recommend_items`. -/
structure CardMeta where
  contentid : String
  cat1 : String
  addr1 : String
  firstimage2 : String
  title : String
  region : String
deriving DecidableEq

/-- One recommendation card as assembled by `DataService.recommend_items`. -/
structure Card where
  name : String
  reason : String
  address : String
  image_url : String
  homepage : String
  metadata : CardMeta
deriving DecidableEq

/-- One parsed line of the JSONL similarity-cache store.  `embedding` is
`none` when the stored field is not a list (`_VecCache.search` skips such
records); `cards` is `none` when the field is absent. -/
structure CacheRecord where
  query : String
  embedding : Option (List ℚ)
  cards : Option (List Card)
deriving DecidableEq

/-! ### _VecCache (search_service.py)

Similarity values are rationals and the similarity function is a
parameter `simF` (the float-valued `_cos_sim` is analysed separately
over ℝ); `rows` is the parsed content of the JSONL store. -/

/-- Model of `_VecCache.search`: score every record having a list-valued
embedding, sort by similarity descending (Python's `sort` is stable;
`insertionSort` with this relation is the same stable descending order),
return the top `topK` records. -/
def vecCacheSearch (simF : List ℚ → List ℚ → ℚ) (qvec : List ℚ)
    (rows : List CacheRecord) (topK : Nat) : List CacheRecord :=
  let scored := rows.filterMap (fun r => r.embedding.map (fun v => (simF qvec v, r)))
  let sorted := scored.insertionSort (fun a b => b.1 ≤ a.1)
  (sorted.take topK).map (·.2)

/-- The record `_VecCache.add` appends. -/
def mkCacheRecord (query : String) (emb : List ℚ) (cards : List Card) : CacheRecord :=
  ⟨query, some emb, some cards⟩

/-- Python `l[-k:]` for `k : Nat` (note `l[-0:]` is the whole list). -/
def pySliceLast (l : List α) (k : Nat) : List α :=
  if k = 0 then l else l.drop (l.length - k)

/-- Model of `_VecCache.add`: append the new record, truncate to the last
`maxItems` lines when over capacity, rewrite the store. -/
def vecCacheAdd (maxItems : Nat) (rows : List CacheRecord)
    (query : String) (emb : List ℚ) (cards : List Card) : List CacheRecord :=
  let rows' := rows ++ [mkCacheRecord query emb cards]
  if maxItems < rows'.length then pySliceLast rows' maxItems else rows'

/-! ### SearchService.search (search_service.py) -/

/-- Observable outcome of one `SearchService.search` call: the returned
cards, whether `DataService.recommend_items` was invoked, and the cache
store content afterwards. -/
structure SearchOutcome where
  cards : List Card
  pipelineInvoked : Bool
  rowsAfter : List CacheRecord
deriving DecidableEq

/-- The cache-miss path of `SearchService.search`: run the pipeline,
persist the result when it is non-empty. -/
def searchMiss (maxItems : Nat) (pipeline : String → Nat → List Card)
    (rows : List CacheRecord) (query : String) (qv : List ℚ) (want : Nat) :
    SearchOutcome :=
  let cards := pipeline query want
  ⟨cards, true, if cards = [] then rows else vecCacheAdd maxItems rows query qv cards⟩

/-- Model of `SearchService.search`, given the embedded query vector `qv` (the
embedding call is an external oracle) and the pipeline as an oracle. -/
def searchStep (simF : List ℚ → List ℚ → ℚ) (threshold : ℚ) (maxItems : Nat)
    (pipeline : String → Nat → List Card) (rows : List CacheRecord)
    (query : String) (qv : List ℚ) (topK : Option Nat) : SearchOutcome :=
  let want := pyOrNat topK NUM_RECOMMEND
  match (vecCacheSearch simF qv rows 1).head? with
  | some hit =>
    if threshold ≤ simF qv (hit.embedding.getD []) then
      ⟨(hit.cards.getD []).take want, false, rows⟩
    else
      searchMiss maxItems pipeline rows query qv want
  | none => searchMiss maxItems pipeline rows query qv want

/-! ### URL handling (data_service.py utilities)

`urllib.parse.urlparse` is modelled for the fields the source reads:
`netloc` and `path`.  A scheme is an initial alphabetic run of scheme
characters before a colon; the netloc is present only after `//` and
runs to the next `/`, `?` or `#`; the path stops at `?` or `#`. -/

/-- Characters allowed in a URL scheme after the initial letter. -/
def isSchemeChar (c : Char) : Bool := c.isAlpha || c.isDigit || c == '+' || c == '-' || c == '.'

/-- Strip a leading `scheme:` if present, as `urlparse` does. -/
def dropScheme (s : List Char) : List Char :=
  let pre := s.takeWhile (fun c => c != ':')
  if pre.length < s.length ∧ pre ≠ [] ∧ pre.headI.isAlpha ∧ pre.all isSchemeChar then
    s.drop (pre.length + 1)
  else s

/-- Model of `(urlparse(url).netloc, urlparse(url).path)`. -/
def urlNetlocPath (url : String) : String × String :=
  let s := url.toList.takeWhile (fun c => c != '#')
  let rest := dropScheme s
  if rest.take 2 = ['/', '/'] then
    let r := rest.drop 2
    let netloc := r.takeWhile (fun c => c != '/' && c != '?')
    let after := r.drop netloc.length
    (netloc.asString, (after.takeWhile (fun c => c != '?')).asString)
  else
    ("", (rest.takeWhile (fun c => c != '?')).asString)

/-- Model of `urlparse(url).netloc.lower().split(":")[0]`, the host part used by
`_domain_blocked` and `_head_ok`. -/
def hostOf (url : String) : String :=
  ((pyToLower (urlNetlocPath url).1).toList.takeWhile (fun c => c != ':')).asString

/-- Model of `_to_https`: strip, empty stays empty, promote `http://` to `https://`. -/
def toHttps (url : String) : String :=
  let u := pyStrip url
  if u = "" then ""
  else if pyStartsWith u "http://" then "https://" ++ (u.toList.drop 7).asString
  else u

/-- The extension of the lower-cased URL path (`p.rsplit(".", 1)[-1]`
when `"." in p`). -/
def urlExt (url : String) : Option String :=
  let p := (pyToLower (urlNetlocPath url).2).toList
  if p.contains '.' then some ((p.reverse.takeWhile (fun c => c != '.')).reverse.asString)
  else none

/-- Model of `_ext_ok`: the path has an extension and it is in the allowed set. -/
def extOk (url : String) : Bool :=
  match urlExt url with
  | some e => IMAGE_ALLOWED_EXTS.contains e
  | none => false

/-- Model of `_domain_blocked`: the host equals a deny-listed domain or is a
subdomain of one. -/
def domainBlocked (url : String) : Bool :=
  let host := hostOf url
  IMAGE_DENY_DOMAINS.any (fun d => host == d || pyEndsWith host ("." ++ d))

/-! ### ImageValidator HEAD step (_head_ok / _validate_image_url) -/

/-- The parts of a HEAD response that `_head_ok` reads.  `none` header
values model absent headers. -/
structure HeadResp where
  status : Nat
  contentType : Option String
  contentLength : Option String
deriving DecidableEq

/-- The checks `_head_ok` applies to a received HEAD response. -/
def headRespOk (r : HeadResp) : Bool :=
  if 400 ≤ r.status then false
  else if !(pyStartsWith (pyToLower (r.contentType.getD "")) "image/") then false
  else
    let clen := r.contentLength.getD ""
    if pyIsDigit clen &&
        (decide (pyInt clen < IMAGE_MIN_BYTES) || decide (IMAGE_MAX_BYTES < pyInt clen)) then
      false
    else true

/-- Model of `_head_ok`, instrumented: the HEAD transport is an oracle returning
`none` on a transport error; the second component records whether a HEAD
request was issued at all. -/
def headOkInstr (requireHead : Bool) (headOracle : String → Option HeadResp)
    (url : String) : Bool × Bool :=
  if !requireHead then (true, false)
  else if IMAGE_HEAD_WHITELIST_NOHEAD.contains (hostOf url) then (true, false)
  else
    match headOracle url with
    | none => (false, true)
    | some r => (headRespOk r, true)

/-- Model of `_validate_image_url`, instrumented with whether a HEAD request was
issued: https promotion, then the short-circuit chain
empty / domain / extension / HEAD. -/
def validateImageUrlInstr (requireHead : Bool) (headOracle : String → Option HeadResp)
    (raw : String) : String × Bool :=
  let url := toHttps raw
  if url = "" then ("", false)
  else if domainBlocked url then ("", false)
  else if !extOk url then ("", false)
  else
    let hr := headOkInstr requireHead headOracle url
    (if hr.1 then url else "", hr.2)

/-! ### Area-code resolution (DataService._resolve_area_code) -/

/-- One entry of the `areaCode2` response item list. -/
structure AreaEntry where
  code : Option String
  name : Option String
deriving DecidableEq

/-- The suffix stripping applied to the queried region name before
substring matching. -/
def stripAdminSuffixes (s : String) : String :=
  pyStrip (pyReplace (pyReplace (pyReplace s "특별자치도" "") "광역시" "") "특별시" "")

/-- Python truthiness applied to the extracted `code` field
(`str(code) if code else None`). -/
def pyTruthyCode : Option String → Option String
  | some c => if c = "" then none else some c
  | none => none

/-- Model of `DataService._resolve_area_code`: the fetched area list is an oracle
value, `none` standing for any transport/parse failure. -/
def resolveAreaCode (fetched : Option (List AreaEntry)) (regionName : String) :
    Option String × Option String :=
  match fetched with
  | none => (none, none)
  | some items =>
    let name := stripAdminSuffixes regionName
    let cand := items.filter (fun it => name ≠ "" && strContains (it.name.getD "") name)
    let cand := if cand.isEmpty && !items.isEmpty then items else cand
    (pyTruthyCode (cand.head?.bind (·.code)), none)

/-! ### One-line summary (DataService._summarize_one_line) -/

/-- Model of `re.split(r"[.!?。]\s*", s)[0]`: the text before the first
sentence-terminating punctuation character. -/
def firstSentence (s : String) : String :=
  (s.toList.takeWhile (fun c => c != '.' && c != '!' && c != '?' && c != '。')).asString

/-- Model of `DataService._summarize_one_line`.  The language-model call is an
oracle: `some content` is the returned message content (after the
`or ""` guard), `none` is any raised exception. -/
def summarizeOneLine (llm : String → Option String) (text : String) : String :=
  let t := pyStrip text
  if t = "" then ""
  else
    match llm t with
    | some content =>
      let s := pyStrip (firstSentence (pyStrip content))
      if s = "" then "" else s ++ "."
    | none =>
      let s := pyStrip (firstSentence t)
      pyTake s 40 ++ (if 40 < s.length then "..." else "")

/-! ### Recommendation pipeline (DataService.recommend_items) -/

/-- Model of `_compose_full_address`: strip both fragments, space-join when both
are non-empty, otherwise whichever is non-empty (or empty). -/
def composeFullAddress (addr1 addr2 : String) : String :=
  let a1 := pyStrip addr1
  let a2 := pyStrip addr2
  if a1 ≠ "" ∧ a2 ≠ "" then a1 ++ " " ++ a2 else pyOrS a1 a2

/-- One raw item of the `areaBasedList2` response, with the fields the
source reads (`None`-able, as `it.get(...)`). -/
structure RawItem where
  contentid : Option String
  title : Option String
  addr1 : Option String
  addr2 : Option String
  firstimage : Option String
  firstimage2 : Option String
  cat1 : Option String
deriving DecidableEq

/-- The commercial-listing title filter of `_clean_items`:
`re.search(r"(대리점|지점|점$|마트|백화점|면세점|아울렛|할인점|스토어)", title)`. -/
def commercialTitle (t : String) : Bool :=
  strContains t "대리점" || strContains t "지점" || pyEndsWith t "점" ||
  strContains t "마트" || strContains t "백화점" || strContains t "면세점" ||
  strContains t "아울렛" || strContains t "할인점" || strContains t "스토어"

/-- Model of `DataService._clean_items`: keep items whose stripped title is
non-empty and does not match the commercial pattern. -/
def cleanItems (items : List RawItem) : List RawItem :=
  items.filter (fun it =>
    pyStrip (it.title.getD "") ≠ "" && !commercialTitle (pyStrip (it.title.getD "")))

/-- Card assembly for one sampled item (the loop body of
`DataService.recommend_items` step 6).  `fetchDetail`, `summarize` and
`pickImage` are the `_fetch_detail_common`, `_summarize_one_line` and
`_pick_valid_image` effects as oracles. -/
def buildCard (fetchDetail : String → String × String) (summarize : String → String)
    (pickImage : String → String → String → String) (region : String)
    (it : RawItem) : Card :=
  let cid := pyStrip (it.contentid.getD "")
  let title := pyStrip (pyReplace (pyReplace (it.title.getD "") "<b>" "") "</b>" "")
  let addr := composeFullAddress (it.addr1.getD "") (it.addr2.getD "")
  let dh := fetchDetail cid
  let overview := dh.1
  let homepage := dh.2
  let reason := pyOrS (summarize overview)
    (if overview ≠ "" then pyTake overview 120 ++ "..." else "")
  let img := pickImage cid (toHttps (it.firstimage2.getD "")) (toHttps (it.firstimage.getD ""))
  { name := pyOrS title "이름 정보 없음"
    reason := pyOrS reason "한 줄 설명 없음"
    address := pyOrS addr "주소 정보 없음"
    image_url := img
    homepage := homepage
    metadata := { contentid := cid
                  cat1 := it.cat1.getD ""
                  addr1 := it.addr1.getD ""
                  firstimage2 := it.firstimage2.getD ""
                  title := title
                  region := region } }

/-- Observable outcome of one `DataService.recommend_items` call: the
returned cards, the candidate list after `_clean_items`, and the sampled
items that underwent per-item enrichment (detail fetch, summary call,
image resolution). -/
structure PipelineOutcome where
  cards : List Card
  cleaned : List RawItem
  enriched : List RawItem
deriving DecidableEq

/-- Model of `DataService.recommend_items`.  External effects are oracles:
`extract` is `_extract_region_and_cat1`; `resolveArea` is
`_resolve_area_code`; `fetchList` is the `areaBasedList2` call given
`numOfRows`, `areaCode`, `sigunguCode` and `cat1` (`none` is a transport
or parse failure, turned into an empty item list); `sample` is
`random.sample`. -/
def recommendItems (extract : String → String × Option String)
    (resolveArea : String → Option String × Option String)
    (fetchList : Nat → Option String → Option String → Option String → Option (List RawItem))
    (sample : List RawItem → Nat → List RawItem)
    (fetchDetail : String → String × String) (summarize : String → String)
    (pickImage : String → String → String → String)
    (userQuery : String) (want0 : Option Nat) : PipelineOutcome :=
  let want := pyOrNat want0 NUM_RECOMMEND
  let rc := extract userQuery
  let ac := resolveArea rc.1
  let numRows := max 80 (want * API_FETCH_MULTIPLIER)
  let items := (fetchList numRows ac.1 ac.2 rc.2).getD []
  let cleaned := cleanItems items
  if cleaned.isEmpty then ⟨[], cleaned, []⟩
  else
    let sampled := sample cleaned (min want cleaned.length)
    ⟨(sampled.map (buildCard fetchDetail summarize pickImage rc.1)).take want,
      cleaned, sampled⟩

/-! ## Helper lemmas -/

/-- A Python `or`-default is non-empty whenever the default is. -/
theorem pyOrS_ne_empty (a b : String) (hb : b ≠ "") : pyOrS a b ≠ "" := by
  unfold pyOrS
  split
  · exact hb
  · assumption

/-- The card list of a pipeline run never exceeds the effective `want`. -/
theorem recommendItems_cards_length_le (E : String → String × Option String)
    (R : String → Option String × Option String)
    (F : Nat → Option String → Option String → Option String → Option (List RawItem))
    (S : List RawItem → Nat → List RawItem) (FD : String → String × String)
    (SM : String → String) (PI : String → String → String → String)
    (q : String) (w : Option Nat) :
    (recommendItems E R F S FD SM PI q w).cards.length ≤ pyOrNat w NUM_RECOMMEND := by
  unfold recommendItems
  dsimp only
  split
  · simp
  · exact List.length_take_le _ _

/-- A pipeline run whose cleaned candidate list is empty produces the
fully empty outcome. -/
theorem recommendItems_cleaned_empty (E : String → String × Option String)
    (R : String → Option String × Option String)
    (F : Nat → Option String → Option String → Option String → Option (List RawItem))
    (S : List RawItem → Nat → List RawItem) (FD : String → String × String)
    (SM : String → String) (PI : String → String → String → String)
    (q : String) (w : Option Nat)
    (h : (recommendItems E R F S FD SM PI q w).cleaned = []) :
    recommendItems E R F S FD SM PI q w = ⟨[], [], []⟩ := by
  unfold recommendItems at *
  dsimp only at *
  split at h
  · rename_i hempty
    simp only [List.isEmpty_iff] at hempty
    simp [hempty]
  · rename_i hne
    simp only [List.isEmpty_iff] at hne
    simp only at h
    exact absurd h hne

/-! ## Claims -/

/-- C2: after every `_VecCache.add` with a positive configured capacity,
the store is exactly the last `maxItems` of the previous records plus the
new one — so it holds at most `maxItems` records, the earliest-appended
records are dropped first (FIFO truncation), and the new record is always
retained. -/
theorem vecCacheAdd_fifo (maxItems : Nat) (rows : List CacheRecord)
    (q : String) (emb : List ℚ) (cs : List Card) (hmax : 0 < maxItems) :
    vecCacheAdd maxItems rows q emb cs =
      (rows ++ [mkCacheRecord q emb cs]).drop (rows.length + 1 - maxItems) ∧
    (vecCacheAdd maxItems rows q emb cs).length = min (rows.length + 1) maxItems ∧
    mkCacheRecord q emb cs ∈ vecCacheAdd maxItems rows q emb cs := by
  have hlen : (rows ++ [mkCacheRecord q emb cs]).length = rows.length + 1 := by
    simp
  have heq : vecCacheAdd maxItems rows q emb cs =
      (rows ++ [mkCacheRecord q emb cs]).drop (rows.length + 1 - maxItems) := by
    unfold vecCacheAdd pySliceLast
    dsimp only
    rw [hlen]
    by_cases hlt : maxItems < rows.length + 1
    · rw [if_pos hlt, if_neg (Nat.pos_iff_ne_zero.mp hmax)]
    · rw [if_neg hlt]
      have : rows.length + 1 - maxItems = 0 := by omega
      rw [this, List.drop_zero]
  refine ⟨heq, ?_, ?_⟩
  · rw [heq, List.length_drop, hlen]
    omega
  · rw [heq, List.drop_append_eq_append_drop]
    have : rows.length + 1 - maxItems - rows.length = 0 := by omega
    rw [this, List.drop_zero]
    exact List.mem_append_right _ (List.mem_singleton.mpr rfl)

/-- Witness for C2 at a concrete store: capacity 2, two old records and a
new one — the oldest record is dropped, the new one kept. -/
theorem vecCacheAdd_fifo_witness :
    vecCacheAdd 2 [(⟨"a", none, none⟩ : CacheRecord), ⟨"b", none, none⟩] "c" [1] [] =
      ([(⟨"a", none, none⟩ : CacheRecord), ⟨"b", none, none⟩] ++ [mkCacheRecord "c" [1] []]).drop
        ([(⟨"a", none, none⟩ : CacheRecord), ⟨"b", none, none⟩].length + 1 - 2) ∧
    (vecCacheAdd 2 [(⟨"a", none, none⟩ : CacheRecord), ⟨"b", none, none⟩] "c" [1] []).length =
      min ([(⟨"a", none, none⟩ : CacheRecord), ⟨"b", none, none⟩].length + 1) 2 ∧
    mkCacheRecord "c" [1] [] ∈
      vecCacheAdd 2 [(⟨"a", none, none⟩ : CacheRecord), ⟨"b", none, none⟩] "c" [1] [] :=
  vecCacheAdd_fifo 2 [⟨"a", none, none⟩, ⟨"b", none, none⟩] "c" [1] [] (by decide)

/-- C1: when the top-ranked cached record's similarity to the query
vector reaches the threshold, `SearchService.search` returns exactly that
record's stored cards in stored order truncated to the effective
requested count, does not invoke the recommendation pipeline, and leaves
the cache store unchanged. -/
theorem search_cache_hit (simF : List ℚ → List ℚ → ℚ) (threshold : ℚ) (maxItems : Nat)
    (pipeline : String → Nat → List Card) (rows : List CacheRecord)
    (query : String) (qv : List ℚ) (topK : Option Nat)
    (hit : CacheRecord) (rest : List CacheRecord)
    (h1 : vecCacheSearch simF qv rows 1 = hit :: rest)
    (h2 : threshold ≤ simF qv (hit.embedding.getD [])) :
    searchStep simF threshold maxItems pipeline rows query qv topK =
      ⟨(hit.cards.getD []).take (pyOrNat topK NUM_RECOMMEND), false, rows⟩ := by
  unfold searchStep
  rw [h1]
  simp only [List.head?_cons]
  rw [if_pos h2]

/-- Witness for C1: a one-record store whose similarity is 1 against a
threshold of 1 — the stored two cards come back unchanged, the pipeline
stays uninvoked and the store is untouched. -/
theorem search_cache_hit_witness :
    searchStep (fun _ _ => 1) 1 500 (fun _ _ => [])
      [mkCacheRecord "제주 관광지" [1, 0]
        [⟨"성산일출봉", "해돋이 명소.", "서귀포시", "", "", ⟨"1", "A01", "서귀포시", "", "성산일출봉", "제주"⟩⟩,
         ⟨"한라산", "높은 산.", "제주시", "", "", ⟨"2", "A01", "제주시", "", "한라산", "제주"⟩⟩]]
      "제주 여행" [1, 0] none =
      ⟨((mkCacheRecord "제주 관광지" [1, 0]
          [⟨"성산일출봉", "해돋이 명소.", "서귀포시", "", "", ⟨"1", "A01", "서귀포시", "", "성산일출봉", "제주"⟩⟩,
           ⟨"한라산", "높은 산.", "제주시", "", "", ⟨"2", "A01", "제주시", "", "한라산", "제주"⟩⟩]).cards.getD []).take
          (pyOrNat none NUM_RECOMMEND),
        false,
        [mkCacheRecord "제주 관광지" [1, 0]
          [⟨"성산일출봉", "해돋이 명소.", "서귀포시", "", "", ⟨"1", "A01", "서귀포시", "", "성산일출봉", "제주"⟩⟩,
           ⟨"한라산", "높은 산.", "제주시", "", "", ⟨"2", "A01", "제주시", "", "한라산", "제주"⟩⟩]]⟩ :=
  search_cache_hit (fun _ _ => 1) 1 500 (fun _ _ => []) _ "제주 여행" [1, 0] none _ []
    (by decide) (by decide)

/-- C3 counterexample: calling `recommend_items` with `want = 0` does not
return at most `0` cards — the falsy value is replaced by the default and
one candidate yields one card. -/
theorem recommendItems_want_zero_ce :
    ¬ ((recommendItems (fun _ => ("제주", none)) (fun _ => (none, none))
        (fun _ _ _ _ => some [⟨some "1", some "성산일출봉", some "서귀포시", none, none, none, some "A01"⟩])
        (fun l k => l.take k) (fun _ => ("", "")) (fun _ => "") (fun _ _ _ => "")
        "제주 자연" (some 0)).cards.length ≤ 0) := by
  decide

/-- C3 (amended): for every query and every `want`, the pipeline returns
at most the effective `want` cards (`want` itself when non-zero, the
configured default when `want` is `0`/`None`), and when the cleaned
candidate list is empty it returns the empty outcome immediately, with no
per-item enrichment performed. -/
theorem recommendItems_len_and_empty (E : String → String × Option String)
    (R : String → Option String × Option String)
    (F : Nat → Option String → Option String → Option String → Option (List RawItem))
    (S : List RawItem → Nat → List RawItem) (FD : String → String × String)
    (SM : String → String) (PI : String → String → String → String)
    (q : String) (w : Option Nat) :
    (recommendItems E R F S FD SM PI q w).cards.length ≤ pyOrNat w NUM_RECOMMEND ∧
    ((recommendItems E R F S FD SM PI q w).cleaned = [] →
      recommendItems E R F S FD SM PI q w = ⟨[], [], []⟩) :=
  ⟨recommendItems_cards_length_le E R F S FD SM PI q w,
   recommendItems_cleaned_empty E R F S FD SM PI q w⟩

/-- Witness for C3 (amended): with the listing call failing, the cleaned
list is empty and the pipeline returns the empty outcome with no
enrichment. -/
theorem recommendItems_len_and_empty_witness :
    recommendItems (fun _ => ("제주", none)) (fun _ => (none, none)) (fun _ _ _ _ => none)
      (fun l k => l.take k) (fun _ => ("", "")) (fun _ => "") (fun _ _ _ => "")
      "제주 자연" none = ⟨[], [], []⟩ :=
  (recommendItems_len_and_empty (fun _ => ("제주", none)) (fun _ => (none, none))
    (fun _ _ _ _ => none) (fun l k => l.take k) (fun _ => ("", "")) (fun _ => "")
    (fun _ _ _ => "") "제주 자연" none).2 (by decide)

/-- C10: a falsy requested count is replaced by the configured default at
both entry points: `search` behaves identically for `top_k = 0`,
`top_k = None` and `top_k = NUM_RECOMMEND`, `recommend_items` does the
same for `want`, and in those cases the pipeline returns at most
`NUM_RECOMMEND` cards. -/
theorem falsy_count_defaults (simF : List ℚ → List ℚ → ℚ) (threshold : ℚ) (maxItems : Nat)
    (pipeline : String → Nat → List Card) (rows : List CacheRecord)
    (query : String) (qv : List ℚ)
    (E : String → String × Option String) (R : String → Option String × Option String)
    (F : Nat → Option String → Option String → Option String → Option (List RawItem))
    (S : List RawItem → Nat → List RawItem) (FD : String → String × String)
    (SM : String → String) (PI : String → String → String → String) (q2 : String) :
    searchStep simF threshold maxItems pipeline rows query qv (some 0) =
      searchStep simF threshold maxItems pipeline rows query qv none ∧
    searchStep simF threshold maxItems pipeline rows query qv (some 0) =
      searchStep simF threshold maxItems pipeline rows query qv (some NUM_RECOMMEND) ∧
    recommendItems E R F S FD SM PI q2 (some 0) = recommendItems E R F S FD SM PI q2 none ∧
    recommendItems E R F S FD SM PI q2 (some 0) =
      recommendItems E R F S FD SM PI q2 (some NUM_RECOMMEND) ∧
    (recommendItems E R F S FD SM PI q2 (some 0)).cards.length ≤ NUM_RECOMMEND :=
  ⟨rfl, rfl, rfl, rfl, recommendItems_cards_length_le E R F S FD SM PI q2 (some 0)⟩

/-- Every assembled card has non-empty name, reason and address. -/
theorem buildCard_fields_ne (FD : String → String × String) (SM : String → String)
    (PI : String → String → String → String) (region : String) (it : RawItem) :
    (buildCard FD SM PI region it).name ≠ "" ∧
    (buildCard FD SM PI region it).reason ≠ "" ∧
    (buildCard FD SM PI region it).address ≠ "" := by
  unfold buildCard
  exact ⟨pyOrS_ne_empty _ _ (by decide), pyOrS_ne_empty _ _ (by decide),
    pyOrS_ne_empty _ _ (by decide)⟩

/-- C4: every card produced by the pipeline carries all six fields as
non-null values: name, reason and address are non-empty strings, the
Korean placeholder being substituted exactly when the corresponding
source value is missing or empty (empty cleaned title, empty detail
overview with the real summarizer, both address fragments empty), and
image_url/homepage are plain strings in which `""` means absent. -/
theorem pipeline_card_fields :
    (∀ (E : String → String × Option String) (R : String → Option String × Option String)
       (F : Nat → Option String → Option String → Option String → Option (List RawItem))
       (S : List RawItem → Nat → List RawItem) (FD : String → String × String)
       (SM : String → String) (PI : String → String → String → String)
       (q : String) (w : Option Nat) (c : Card),
       c ∈ (recommendItems E R F S FD SM PI q w).cards →
       c.name ≠ "" ∧ c.reason ≠ "" ∧ c.address ≠ "") ∧
    (∀ (FD : String → String × String) (SM : String → String)
       (PI : String → String → String → String) (region : String) (it : RawItem),
       (pyStrip (pyReplace (pyReplace (it.title.getD "") "<b>" "") "</b>" "") = "" →
         (buildCard FD SM PI region it).name = "이름 정보 없음") ∧
       (composeFullAddress (it.addr1.getD "") (it.addr2.getD "") = "" →
         (buildCard FD SM PI region it).address = "주소 정보 없음")) ∧
    (∀ (llm : String → Option String) (FD : String → String × String)
       (PI : String → String → String → String) (region : String) (it : RawItem),
       (FD (pyStrip (it.contentid.getD ""))).1 = "" →
       (buildCard FD (summarizeOneLine llm) PI region it).reason = "한 줄 설명 없음") := by
  refine ⟨?_, ?_, ?_⟩
  · intro E R F S FD SM PI q w c hc
    unfold recommendItems at hc
    dsimp only at hc
    split at hc
    · simp at hc
    · rcases List.mem_map.mp (List.mem_of_mem_take hc) with ⟨it, _, rfl⟩
      exact buildCard_fields_ne FD SM PI _ it
  · intro FD SM PI region it
    constructor
    · intro h
      unfold buildCard
      dsimp only
      rw [h]
      rfl
    · intro h
      unfold buildCard
      dsimp only
      rw [h]
      rfl
  · intro llm FD PI region it h
    unfold buildCard
    dsimp only
    rw [h]
    rfl

/-- Witness for C4: a concrete one-item pipeline run whose card has
non-empty name, reason and address. -/
theorem pipeline_card_fields_witness :
    (buildCard (fun _ => ("경치가 좋다", "")) (fun _ => "한 줄.") (fun _ _ _ => "") "제주"
        ⟨some "1", some "한라산", some "제주시", none, none, none, none⟩).name ≠ "" ∧
    (buildCard (fun _ => ("경치가 좋다", "")) (fun _ => "한 줄.") (fun _ _ _ => "") "제주"
        ⟨some "1", some "한라산", some "제주시", none, none, none, none⟩).reason ≠ "" ∧
    (buildCard (fun _ => ("경치가 좋다", "")) (fun _ => "한 줄.") (fun _ _ _ => "") "제주"
        ⟨some "1", some "한라산", some "제주시", none, none, none, none⟩).address ≠ "" :=
  pipeline_card_fields.1 (fun _ => ("제주", none)) (fun _ => (none, none))
    (fun _ _ _ _ => some [⟨some "1", some "한라산", some "제주시", none, none, none, none⟩])
    (fun l k => l.take k) (fun _ => ("경치가 좋다", "")) (fun _ => "한 줄.") (fun _ _ _ => "")
    "제주 여행" none _ (by decide)

/-- C5: the image validator rejects — returning the empty string without
issuing any HEAD request — every URL whose host is deny-listed (equal to
or a subdomain of a blocked domain), whatever the extension or HEAD
oracle, and every URL whose path has no extension or an extension outside
the allowed set. -/
theorem validate_rejects_before_head (requireHead : Bool)
    (headOracle : String → Option HeadResp) (raw : String)
    (h : domainBlocked (toHttps raw) = true ∨ extOk (toHttps raw) = false) :
    validateImageUrlInstr requireHead headOracle raw = ("", false) := by
  unfold validateImageUrlInstr
  dsimp only
  rcases h with h | h <;> split_ifs <;> simp_all

/-- Witness for C5 at the spec's own examples: a deny-listed subdomain
with a valid extension, and an extension-less path on an allowed host,
both rejected with no HEAD traffic even though the HEAD oracle would
approve them. -/
theorem validate_rejects_before_head_witness :
    validateImageUrlInstr true (fun _ => some ⟨200, some "image/jpeg", some "5000"⟩)
      "http://img.example.com/a.jpg" = ("", false) ∧
    validateImageUrlInstr true (fun _ => some ⟨200, some "image/jpeg", some "5000"⟩)
      "https://cdn.test/photo" = ("", false) :=
  ⟨validate_rejects_before_head true (fun _ => some ⟨200, some "image/jpeg", some "5000"⟩)
      "http://img.example.com/a.jpg" (Or.inl (by decide)),
   validate_rejects_before_head true (fun _ => some ⟨200, some "image/jpeg", some "5000"⟩)
      "https://cdn.test/photo" (Or.inr (by decide))⟩

/-- The HEAD response checks fail exactly on status ≥ 400, a
`Content-Type` not starting with `image/`, or a numeric `Content-Length`
outside the configured byte bounds. -/
theorem headRespOk_false_iff (r : HeadResp) :
    headRespOk r = false ↔
      400 ≤ r.status ∨
      pyStartsWith (pyToLower (r.contentType.getD "")) "image/" = false ∨
      (pyIsDigit (r.contentLength.getD "") = true ∧
        (pyInt (r.contentLength.getD "") < IMAGE_MIN_BYTES ∨
         IMAGE_MAX_BYTES < pyInt (r.contentLength.getD ""))) := by
  unfold headRespOk
  dsimp only
  split_ifs with h1 h2 h3 <;> simp_all

/-- C6: with HEAD verification enabled and a non-allowlisted host, the
validator issues exactly one HEAD probe and rejects precisely when the
probe errors, the status is ≥ 400, the Content-Type does not start with
`image/`, or a numeric Content-Length lies outside
[IMAGE_MIN_BYTES, IMAGE_MAX_BYTES]; every HEAD rejection surfaces as the
empty string from the validator, never as an exception. -/
theorem head_check_semantics (headOracle : String → Option HeadResp) (url : String)
    (h : IMAGE_HEAD_WHITELIST_NOHEAD.contains (hostOf url) = false) :
    (headOkInstr true headOracle url).2 = true ∧
    ((headOkInstr true headOracle url).1 = false ↔
      headOracle url = none ∨
      ∃ r, headOracle url = some r ∧
        (400 ≤ r.status ∨
         pyStartsWith (pyToLower (r.contentType.getD "")) "image/" = false ∨
         (pyIsDigit (r.contentLength.getD "") = true ∧
           (pyInt (r.contentLength.getD "") < IMAGE_MIN_BYTES ∨
            IMAGE_MAX_BYTES < pyInt (r.contentLength.getD ""))))) ∧
    (∀ raw, (headOkInstr true headOracle (toHttps raw)).1 = false →
      (validateImageUrlInstr true headOracle raw).1 = "") := by
  refine ⟨?_, ?_, ?_⟩
  · unfold headOkInstr
    rw [h]
    cases headOracle url <;> simp
  · unfold headOkInstr
    rw [h]
    cases ho : headOracle url with
    | none => simp
    | some r =>
      simp only [Bool.not_true, Bool.false_eq_true, reduceIte]
      rw [headRespOk_false_iff]
      constructor
      · intro hc
        exact Or.inr ⟨r, rfl, hc⟩
      · rintro (hnone | ⟨r', hr', hcond⟩)
        · exact absurd hnone (by simp)
        · cases Option.some.inj hr'
          exact hcond
  · intro raw hfail
    unfold validateImageUrlInstr
    dsimp only
    split_ifs <;> simp_all

/-- Witness for C6: a non-allowlisted host whose HEAD response reports a
Content-Length of 500 bytes (below the 1024-byte minimum) with valid
status and content type — the probe is issued and the URL is rejected. -/
theorem head_check_semantics_witness :
    (headOkInstr true (fun _ => some ⟨200, some "image/png", some "500"⟩)
        "https://cdn.test/photo.jpg").2 = true ∧
    ((headOkInstr true (fun _ => some ⟨200, some "image/png", some "500"⟩)
        "https://cdn.test/photo.jpg").1 = false ↔
      (fun _ => some (⟨200, some "image/png", some "500"⟩ : HeadResp)) "https://cdn.test/photo.jpg" = none ∨
      ∃ r, (fun _ => some (⟨200, some "image/png", some "500"⟩ : HeadResp)) "https://cdn.test/photo.jpg" = some r ∧
        (400 ≤ r.status ∨
         pyStartsWith (pyToLower (r.contentType.getD "")) "image/" = false ∨
         (pyIsDigit (r.contentLength.getD "") = true ∧
           (pyInt (r.contentLength.getD "") < IMAGE_MIN_BYTES ∨
            IMAGE_MAX_BYTES < pyInt (r.contentLength.getD ""))))) ∧
    (∀ raw, (headOkInstr true (fun _ => some (⟨200, some "image/png", some "500"⟩ : HeadResp))
        (toHttps raw)).1 = false →
      (validateImageUrlInstr true (fun _ => some ⟨200, some "image/png", some "500"⟩) raw).1 = "") :=
  head_check_semantics (fun _ => some ⟨200, some "image/png", some "500"⟩)
    "https://cdn.test/photo.jpg" (by decide)

/-- C8: `_resolve_area_code` strips the administrative suffixes before
substring matching (so `"제주특별자치도"` and `"제주"` always resolve
alike), falls back to the first entry of the unfiltered list when no
entry name contains the stripped query, returns absent on any
transport/parse failure, and never returns a sub-region code. -/
theorem resolveAreaCode_behaviour :
    (∀ fetched, resolveAreaCode fetched "제주특별자치도" = resolveAreaCode fetched "제주") ∧
    (∀ (items : List AreaEntry) (rn : String),
      (∀ it ∈ items, strContains (it.name.getD "") (stripAdminSuffixes rn) = false) →
      resolveAreaCode (some items) rn = (pyTruthyCode (items.head?.bind (·.code)), none)) ∧
    (∀ rn, resolveAreaCode none rn = (none, none)) ∧
    (∀ fetched rn, (resolveAreaCode fetched rn).2 = none) := by
  have hstrip : stripAdminSuffixes "제주특별자치도" = stripAdminSuffixes "제주" := by decide
  refine ⟨?_, ?_, fun _ => rfl, ?_⟩
  · intro fetched
    cases fetched with
    | none => rfl
    | some items =>
      unfold resolveAreaCode
      rw [hstrip]
  · intro items rn hno
    unfold resolveAreaCode
    dsimp only
    have hfil : items.filter
        (fun it => stripAdminSuffixes rn ≠ "" && strContains (it.name.getD "") (stripAdminSuffixes rn)) = [] := by
      rw [List.filter_eq_nil_iff]
      intro it hit
      rw [hno it hit]
      simp
    rw [hfil]
    cases items with
    | nil => rfl
    | cons a l => rfl
  · intro fetched rn
    cases fetched <;> rfl

/-- Witness for C8: an area list with no entry containing the stripped
query falls back to the first entry's code. -/
theorem resolveAreaCode_behaviour_witness :
    resolveAreaCode (some [⟨some "1", some "서울"⟩, ⟨some "39", some "제주도"⟩]) "대구" =
      (pyTruthyCode (([(⟨some "1", some "서울"⟩ : AreaEntry), ⟨some "39", some "제주도"⟩].head?).bind (·.code)),
        none) :=
  resolveAreaCode_behaviour.2.1 [⟨some "1", some "서울"⟩, ⟨some "39", some "제주도"⟩] "대구"
    (by decide)

/-- C9 counterexample: with the model call failing on an overview whose
first sentence ends early, `_summarize_one_line` does not truncate the
raw overview to 40 characters — it returns just the first sentence, with
no ellipsis, even though the overview is longer than 40 characters. -/
theorem summarize_fallback_ce :
    summarizeOneLine (fun _ => none)
      "가. 나나나나나나나나나나나나나나나나나나나나나나나나나나나나나나나나나나나나나나나나나나나" = "가" ∧
    40 < ("가. 나나나나나나나나나나나나나나나나나나나나나나나나나나나나나나나나나나나나나나나나나나나" : String).length ∧
    summarizeOneLine (fun _ => none)
        "가. 나나나나나나나나나나나나나나나나나나나나나나나나나나나나나나나나나나나나나나나나나나나" ≠
      pyTake "가. 나나나나나나나나나나나나나나나나나나나나나나나나나나나나나나나나나나나나나나나나나나나" 40 ++ "..." := by
  refine ⟨by decide, by decide, by decide⟩

/-- C9 (amended): when the language-model call fails,
`_summarize_one_line` falls back to the first sentence of the trimmed
overview (text before the first sentence-terminating punctuation,
re-trimmed) truncated to 40 characters, with an ellipsis only when that
first sentence exceeds 40 characters; on the success path it keeps the
text up to the first sentence-terminating punctuation of the model
output, appending a period when non-empty content was produced. -/
theorem summarize_semantics (llm : String → Option String) (text : String)
    (ht : pyStrip text ≠ "") :
    (llm (pyStrip text) = none →
      summarizeOneLine llm text =
        pyTake (pyStrip (firstSentence (pyStrip text))) 40 ++
          (if 40 < (pyStrip (firstSentence (pyStrip text))).length then "..." else "")) ∧
    (∀ content, llm (pyStrip text) = some content →
      summarizeOneLine llm text =
        (if pyStrip (firstSentence (pyStrip content)) = "" then ""
         else pyStrip (firstSentence (pyStrip content)) ++ ".")) := by
  constructor
  · intro hfail
    unfold summarizeOneLine
    rw [if_neg ht, hfail]
  · intro content hok
    unfold summarizeOneLine
    rw [if_neg ht, hok]

/-- Witness for C9 (amended): a short failing-path call returns the
trimmed first sentence unchanged, with no ellipsis. -/
theorem summarize_semantics_witness :
    summarizeOneLine (fun _ => none) "가나다" =
      pyTake (pyStrip (firstSentence (pyStrip "가나다"))) 40 ++
        (if 40 < (pyStrip (firstSentence (pyStrip "가나다"))).length then "..." else "") :=
  (summarize_semantics (fun _ => none) "가나다" (by decide)).1 rfl

/-! ## Cosine similarity lemmas (C7) -/

/-- The dot product of `_cos_sim` is symmetric. -/
theorem dotList_comm (a b : List ℝ) : dotList a b = dotList b a := by
  unfold dotList
  rw [List.zipWith_comm]
  simp only [mul_comm]

/-- Zipping a list with itself under multiplication squares each entry. -/
theorem zipWith_mul_self (v : List ℝ) :
    List.zipWith (· * ·) v v = v.map (fun x => x * x) := by
  induction v with
  | nil => rfl
  | cons x xs ih => simp [ih]

/-- A sum of squares is non-negative. -/
theorem sumSq_nonneg (v : List ℝ) : 0 ≤ sumSq v := by
  apply List.sum_nonneg
  intro x hx
  rcases List.mem_map.mp hx with ⟨y, _, rfl⟩
  exact mul_self_nonneg y

/-- A sum of squares with one non-zero entry is positive. -/
theorem sumSq_pos (v : List ℝ) (h : ∃ x ∈ v, x ≠ 0) : 0 < sumSq v := by
  induction v with
  | nil =>
    rcases h with ⟨x, hx, _⟩
    cases hx
  | cons a l ih =>
    rcases h with ⟨x, hx, hxne⟩
    have hs : sumSq (a :: l) = a * a + sumSq l := by
      unfold sumSq
      simp
    rw [hs]
    rcases List.mem_cons.mp hx with rfl | hmem
    · have h1 : 0 < x * x := mul_self_pos.mpr hxne
      have h2 : 0 ≤ sumSq l := sumSq_nonneg l
      linarith
    · have h1 : 0 < sumSq l := ih ⟨x, hmem, hxne⟩
      have h2 : 0 ≤ a * a := mul_self_nonneg a
      linarith

/-- Each epsilon-floored norm is strictly positive. -/
theorem normFloor_pos (a : List ℝ) : 0 < normFloor a := by
  unfold normFloor pyOrR
  split
  · norm_num
  · rename_i hne
    exact lt_of_le_of_ne (Real.sqrt_nonneg _) (Ne.symm hne)

/-- C7: `_cos_sim` is total on all real vectors — its denominator is
strictly positive even for all-zero inputs thanks to the epsilon floor —
it is symmetric, and on any vector with a non-zero entry its
self-similarity is exactly 1. -/
theorem cos_sim_props :
    (∀ a b : List ℝ, 0 < normFloor a * normFloor b) ∧
    (∀ a b : List ℝ, cos_sim a b = cos_sim b a) ∧
    (∀ v : List ℝ, (∃ x ∈ v, x ≠ 0) → cos_sim v v = 1) := by
  refine ⟨fun a b => mul_pos (normFloor_pos a) (normFloor_pos b), fun a b => ?_, fun v hv => ?_⟩
  · unfold cos_sim
    rw [dotList_comm, mul_comm]
  · unfold cos_sim
    have hS : 0 < sumSq v := sumSq_pos v hv
    have hsqrt : Real.sqrt (sumSq v) ≠ 0 := ne_of_gt (Real.sqrt_pos.mpr hS)
    have hnf : normFloor v = Real.sqrt (sumSq v) := by
      unfold normFloor pyOrR
      rw [if_neg hsqrt]
    have hd : dotList v v = sumSq v := by
      unfold dotList sumSq
      rw [zipWith_mul_self]
    rw [hnf, Real.mul_self_sqrt hS.le, hd, div_self (ne_of_gt hS)]

/-- Witness for C7: the non-zero vector `[3]` has self-similarity 1. -/
theorem cos_sim_props_witness : cos_sim [(3 : ℝ)] [(3 : ℝ)] = 1 :=
  cos_sim_props.2.2 [(3 : ℝ)] ⟨3, List.mem_singleton.mpr rfl, by norm_num⟩

end TourRec
